import Mathlib

/-!
Verification of the carousel animation logic of `src/src/assets/js/main.js`.

The script's numeric state is embedded in exact rational arithmetic (`ℚ`);
the mesh-deformation function `updateCurve`, which uses `sqrt`, `sin`, `π`
and a fractional power, is embedded over the reals (`ℝ`).  JavaScript's
`%` operator on numbers (truncated division remainder) is modelled by
`jsMod`, and `Math.sign` by `jsSign`.
-/

namespace Slider

/-! ### Constants (the `settings` object and the layout constants) -/

def wheelSensitivity : ℚ := 1/100
def touchSensitivity : ℚ := 1/100
def momentumMultiplier : ℚ := 2
def smoothing : ℚ := 1/10
def slideLerp : ℚ := 75/1000
def distortionDecay : ℚ := 95/100
def maxDistortion : ℚ := 5/2
def distortionSensitivity : ℚ := 15/100
def distortionSmoothing : ℚ := 75/1000

def slideWidth : ℚ := 3
def slideHeight : ℚ := 3/2
def gap : ℚ := 1/10
def slideCount : ℕ := 10
def totalWidth : ℚ := (slideCount : ℚ) * (slideWidth + gap)
def slideUnit : ℚ := slideWidth + gap

/-! ### JavaScript numeric primitives -/

/-- Truncation toward zero, as JavaScript's `%` uses for its implicit
quotient. -/
def jsTrunc (q : ℚ) : ℤ := if 0 ≤ q then ⌊q⌋ else ⌈q⌉

/-- JavaScript's `a % b`: the remainder of truncated division, with the
sign of the dividend. -/
def jsMod (a b : ℚ) : ℚ := a - b * jsTrunc (a / b)

/-- JavaScript's `Math.sign`. -/
def jsSign (q : ℚ) : ℚ := if 0 < q then 1 else if q < 0 then -1 else 0

/-- The canonical positive-mod idiom `((a % b) + b) % b` used at
line 286 of `main.js`. -/
def posMod (a b : ℚ) : ℚ := jsMod (jsMod a b + b) b

/-! ### Slide layout (lines 284-304 of `main.js`) -/

/-- `baseX` as computed for slide `i` at scroll position `pos`
(lines 285-290): positive-mod wrap into `[0, totalWidth)` followed by
re-centering into `(-totalWidth/2, totalWidth/2]`. -/
def wrapBaseX (i : ℕ) (pos : ℚ) : ℚ :=
  let b := posMod ((i : ℚ) * slideUnit - pos) totalWidth
  if b > totalWidth / 2 then b - totalWidth else b

/-- The per-slide mutable data: `mesh.position.x` and the
`userData.targetX` / `userData.currentX` fields. -/
structure SlideRec where
  posX : ℚ
  targetX : ℚ
  currentX : ℚ
  deriving DecidableEq, Repr

/-- One `animate`-frame update of a single slide (lines 284-304):
wrap, snap on wrap discontinuity, lerp toward the target, and
reposition only when the proximity-culling test passes. -/
def slideFrame (pos : ℚ) (i : ℕ) (st : SlideRec) : SlideRec :=
  let baseX := wrapBaseX i pos
  let c1 := if |baseX - st.targetX| > slideWidth * 2 then baseX else st.currentX
  let c2 := c1 + (baseX - c1) * slideLerp
  let wrapThreshold := totalWidth / 2 + slideWidth
  let p2 := if |c2| < wrapThreshold * (3/2) then c2 else st.posX
  { posX := p2, targetX := baseX, currentX := c2 }

/-- `mesh.position.x` as set in `createSlide` (line 69). -/
def createSlideX (i : ℕ) : ℚ := (i : ℚ) * (slideWidth + gap)

/-- A slide's state after creation and the initial centering pass
(lines 122-132): `position.x -= totalWidth/2`, then `targetX` and
`currentX` are initialised to `position.x`. -/
def initSlide (i : ℕ) : SlideRec :=
  let x := createSlideX i - totalWidth / 2
  ⟨x, x, x⟩

/-- A slide's state after an arbitrary sequence of frames, the frame at
scroll position `p` acting by `slideFrame p i`. -/
def slideRun (i : ℕ) (positions : List ℚ) : SlideRec :=
  positions.foldl (fun st p => slideFrame p i st) (initSlide i)

/-! ### Carousel scalar state and input handlers -/

/-- The module-level mutable scalars of `main.js` that the input handlers
and the animation loop read and write. -/
structure Carousel where
  currentPosition : ℚ
  targetPosition : ℚ
  isScrolling : Bool
  autoScrollSpeed : ℚ
  currentDistortionFactor : ℚ
  targetDistortionFactor : ℚ
  peakVelocity : ℚ
  velocityHistory : List ℚ
  touchStartX : ℚ
  touchLastX : ℚ
  deriving DecidableEq, Repr

/-- The initial values of the module-level state (lines 40-52). -/
def initCarousel : Carousel :=
  ⟨0, 0, false, 0, 0, 0, 0, [0, 0, 0, 0, 0], 0, 0⟩

/-- `keydown` handler, `ArrowLeft` branch (lines 162-164). -/
def onArrowLeft (s : Carousel) : Carousel :=
  { s with targetPosition := s.targetPosition + slideUnit,
           targetDistortionFactor := min 1 (s.targetDistortionFactor + 3/10) }

/-- `keydown` handler, `ArrowRight` branch (lines 165-168). -/
def onArrowRight (s : Carousel) : Carousel :=
  { s with targetPosition := s.targetPosition - slideUnit,
           targetDistortionFactor := min 1 (s.targetDistortionFactor + 3/10) }

/-- `wheel` handler (lines 171-188); the 150 ms debounce timer that later
clears `isScrolling` is outside the state transition itself. -/
def onWheel (s : Carousel) (deltaY : ℚ) : Carousel :=
  let wheelStrength := |deltaY| * (1/1000)
  { s with targetDistortionFactor := min 1 (s.targetDistortionFactor + wheelStrength),
           targetPosition := s.targetPosition - deltaY * wheelSensitivity,
           isScrolling := true,
           autoScrollSpeed := min (|deltaY| * (5/10000)) (5/100) * jsSign deltaY }

/-- `touchstart` handler (lines 190-198). -/
def onTouchStart (s : Carousel) (x : ℚ) : Carousel :=
  { s with touchStartX := x, touchLastX := x, isScrolling := false }

/-- `touchmove` handler (lines 200-216). -/
def onTouchMove (s : Carousel) (touchX : ℚ) : Carousel :=
  let deltaX := touchX - s.touchLastX
  let touchStrength := |deltaX| * (2/100)
  { s with touchLastX := touchX,
           targetDistortionFactor := min 1 (s.targetDistortionFactor - touchStrength),
           targetPosition := s.targetPosition - deltaX * touchSensitivity,
           isScrolling := true }

/-- The release velocity computed on `touchend` (line 219). -/
def touchVelocity (s : Carousel) : ℚ := (s.touchLastX - s.touchStartX) * (5/1000)

/-- `touchend` handler (lines 218-230); the 800 ms timer that later clears
`isScrolling` is outside the state transition itself. -/
def onTouchEnd (s : Carousel) : Carousel :=
  let velocity := touchVelocity s
  if |velocity| > 1/2 then
    { s with autoScrollSpeed := -velocity * momentumMultiplier * (5/100),
             targetDistortionFactor := min 1 (|velocity| * 3 * distortionSensitivity),
             isScrolling := true }
  else s

/-! ### The per-frame update of the scalar state (lines 238-282) -/

/-- The scroll-integrator block of `animate` (lines 245-254): the new
`(targetPosition, autoScrollSpeed)` pair.  While `isScrolling`,
`targetPosition` gains `autoScrollSpeed`, the speed decays by
`max(0.92, 0.97 - |autoScrollSpeed|·0.5)` multiplicatively and snaps to
`0` below `0.001`; otherwise both are left unchanged. -/
def scrollTargets (s : Carousel) : ℚ × ℚ :=
  if s.isScrolling then
    let speedBasedDecay := 97/100 - |s.autoScrollSpeed| * (1/2)
    let a := s.autoScrollSpeed * max (92/100) speedBasedDecay
    (s.targetPosition + s.autoScrollSpeed, if |a| < 1/1000 then 0 else a)
  else (s.targetPosition, s.autoScrollSpeed)

/-- The new `targetDistortionFactor` computed at lines 272-280 from the
instantaneous velocity, the average velocity and the deceleration flag. -/
def distortionTarget (currentVelocity avgVelocity : ℚ) (isDecelerating : Bool)
    (tdf : ℚ) : ℚ :=
  let movementDistortion := min 1 (currentVelocity * (1/10))
  let t1 := if currentVelocity > 1/20 then max tdf movementDistortion else tdf
  if isDecelerating || decide (avgVelocity < 1/5) then
    t1 * (if isDecelerating then distortionDecay else distortionDecay * (9/10))
  else t1

/-- One pass of the `animate` callback over the scalar state, with frame
time step `deltaTime` (the slide loop and render call excluded; they do
not touch these scalars). -/
def animateStep (deltaTime : ℚ) (s : Carousel) : Carousel :=
  let prevPos := s.currentPosition
  let tp1 := (scrollTargets s).1
  let as1 := (scrollTargets s).2
  let cp1 := s.currentPosition + (tp1 - s.currentPosition) * smoothing
  let currentVelocity := |cp1 - prevPos| / deltaTime
  let vh := (s.velocityHistory ++ [currentVelocity]).drop 1
  let avgVelocity := vh.sum / (vh.length : ℚ)
  let pk1 := if avgVelocity > s.peakVelocity then avgVelocity else s.peakVelocity
  let velocityRatio := avgVelocity / (pk1 + 1/1000)
  let isDecelerating : Bool := decide (velocityRatio < 7/10) && decide (pk1 > 1/2)
  let pk2 := pk1 * (99/100)
  let t2 := distortionTarget currentVelocity avgVelocity isDecelerating
    s.targetDistortionFactor
  let cd := s.currentDistortionFactor + (t2 - s.currentDistortionFactor) * distortionSmoothing
  { s with currentPosition := cp1, targetPosition := tp1, autoScrollSpeed := as1,
           peakVelocity := pk2, velocityHistory := vh,
           targetDistortionFactor := t2, currentDistortionFactor := cd }

/-- Iterated animation frames with per-frame time steps `dts`. -/
def animateRun (dts : List ℚ) (s : Carousel) : Carousel :=
  dts.foldl (fun st dt => animateStep dt st) s

/-- The generic exponential-smoothing step
`current += (target - current) * sm` with an arbitrary smoothing
factor, as used at line 256 with `sm = smoothing`. -/
def posStepS (sm target current : ℚ) : ℚ := current + (target - current) * sm

/-! ### Mesh deformation (`updateCurve`, lines 134-159), over `ℝ` -/

/-- An undeformed-vertex snapshot (`userData.originalVertices`, `(x, y)`
pairs) together with the current per-vertex Z values of the mesh's
position attribute. -/
structure MeshState where
  orig : List (ℝ × ℝ)
  zs : List ℝ

/-- The Z offset `updateCurve` computes for one vertex of the undeformed
snapshot (lines 142-154): distance of the vertex's world position from
the fixed distortion center (the origin), a linear falloff of radius 2,
then `sin(strength·π/2)^1.5 · maxDistortion · d`. -/
noncomputable def curveZ (worldPositionX d : ℝ) (v : ℝ × ℝ) : ℝ :=
  let distortionRadius : ℝ := 2
  let maxCurvature : ℝ := (5/2) * d
  let vertexWorldPosX := worldPositionX + v.1
  let distFromCenter := Real.sqrt ((vertexWorldPosX - 0) ^ 2 + (v.2 - 0) ^ 2)
  let distortionStrength := max 0 (1 - distFromCenter / distortionRadius)
  Real.sin (distortionStrength * Real.pi / 2) ^ (1.5 : ℝ) * maxCurvature

/-- `updateCurve(mesh, worldPositionX, distortionFactor)`: overwrite every
vertex's Z coordinate with `curveZ`, reading only the undeformed
snapshot. -/
noncomputable def updateCurve (m : MeshState) (worldPositionX d : ℝ) : MeshState :=
  { orig := m.orig, zs := m.orig.map (curveZ worldPositionX d) }

/-! ### Range lemmas for the JavaScript remainder -/

theorem jsMod_floor_case (a b : ℚ) (hb : 0 < b) (hab : 0 ≤ a / b) :
    0 ≤ jsMod a b ∧ jsMod a b < b := by
  have key : jsMod a b = b * Int.fract (a / b) := by
    unfold jsMod jsTrunc
    rw [if_pos hab, Int.fract]
    have hba : b * (a / b) = a := by field_simp
    rw [mul_sub, hba]
  constructor
  · rw [key]
    exact mul_nonneg hb.le (Int.fract_nonneg _)
  · rw [key]
    calc b * Int.fract (a / b) < b * 1 :=
          mul_lt_mul_of_pos_left (Int.fract_lt_one _) hb
    _ = b := mul_one b

theorem jsMod_ceil_case (a b : ℚ) (hb : 0 < b) (hab : ¬ 0 ≤ a / b) :
    -b < jsMod a b ∧ jsMod a b ≤ 0 := by
  have key : jsMod a b = b * (a / b - ⌈a / b⌉) := by
    unfold jsMod jsTrunc
    rw [if_neg hab]
    have hba : b * (a / b) = a := by field_simp
    rw [mul_sub, hba]
  have h1 : a / b - ⌈a / b⌉ ≤ 0 := by
    have := Int.le_ceil (a / b)
    linarith
  have h2 : -1 < a / b - ⌈a / b⌉ := by
    have := Int.ceil_lt_add_one (a / b)
    linarith
  constructor
  · rw [key]
    nlinarith
  · rw [key]
    nlinarith

theorem jsMod_bounds (a b : ℚ) (hb : 0 < b) : -b < jsMod a b ∧ jsMod a b < b := by
  by_cases hab : 0 ≤ a / b
  · obtain ⟨h0, h1⟩ := jsMod_floor_case a b hb hab
    exact ⟨by linarith, h1⟩
  · obtain ⟨h0, h1⟩ := jsMod_ceil_case a b hb hab
    exact ⟨h0, by linarith⟩

theorem jsMod_nonneg_bounds (a b : ℚ) (hb : 0 < b) (ha : 0 ≤ a) :
    0 ≤ jsMod a b ∧ jsMod a b < b :=
  jsMod_floor_case a b hb (div_nonneg ha hb.le)

theorem posMod_bounds (a b : ℚ) (hb : 0 < b) : 0 ≤ posMod a b ∧ posMod a b < b := by
  obtain ⟨h0, h1⟩ := jsMod_bounds a b hb
  exact jsMod_nonneg_bounds (jsMod a b + b) b hb (by linarith)

theorem totalWidth_pos : (0 : ℚ) < totalWidth := by
  norm_num [totalWidth, slideWidth, gap, slideCount]

theorem wrapBaseX_mem (i : ℕ) (pos : ℚ) :
    -(totalWidth / 2) < wrapBaseX i pos ∧ wrapBaseX i pos ≤ totalWidth / 2 := by
  obtain ⟨h0, h1⟩ := posMod_bounds ((i : ℚ) * slideUnit - pos) totalWidth totalWidth_pos
  have htw := totalWidth_pos
  simp only [wrapBaseX]
  split_ifs with h
  · constructor <;> linarith
  · constructor <;> linarith

/-- C1: for every slide index `i` and every value of `currentPosition`, the
per-frame layout computation — positive-mod wrap of
`i·slideUnit - currentPosition` into `[0, totalWidth)` followed by
subtracting `totalWidth` when the result exceeds `totalWidth/2` — yields a
value in the half-open interval `(-totalWidth/2, totalWidth/2]`. -/
theorem C1_wrap_in_half_open_band (i : ℕ) (currentPosition : ℚ) :
    -(totalWidth / 2) < wrapBaseX i currentPosition ∧
      wrapBaseX i currentPosition ≤ totalWidth / 2 :=
  wrapBaseX_mem i currentPosition

/-- C2: in any frame where the newly computed wrapped position `baseX`
differs from the slide's previous `targetX` by more than `2·slideWidth`,
after that frame's slide update `currentX` and `targetX` both equal
`baseX` exactly — the lerp step does not move the slide away from the
snapped position. -/
theorem C2_wrap_snap (pos : ℚ) (i : ℕ) (st : SlideRec)
    (h : |wrapBaseX i pos - st.targetX| > slideWidth * 2) :
    (slideFrame pos i st).currentX = wrapBaseX i pos ∧
      (slideFrame pos i st).targetX = wrapBaseX i pos ∧
      (slideFrame pos i st).currentX = (slideFrame pos i st).targetX := by
  simp only [slideFrame]
  rw [if_pos h]
  refine ⟨by ring, trivial, by ring⟩

theorem jsMod_neg_five : jsMod (-5) 31 = -5 := by
  have hc : ⌈(-5 : ℚ) / 31⌉ = 0 := by norm_num [Int.ceil_eq_iff]
  norm_num [jsMod, jsTrunc, hc]

theorem jsMod_twenty_six : jsMod 26 31 = 26 := by
  have hf : ⌊(26 : ℚ) / 31⌋ = 0 := by norm_num [Int.floor_eq_iff]
  norm_num [jsMod, jsTrunc, hf]

theorem wrapBaseX_zero_five : wrapBaseX 0 5 = -5 := by
  have h3 : posMod (-5) 31 = 26 := by
    rw [posMod, jsMod_neg_five]
    norm_num [jsMod_twenty_six]
  simp only [wrapBaseX, slideUnit, slideWidth, gap, totalWidth, slideCount]
  norm_num [h3]

theorem C2_wrap_snap_witness :
    |wrapBaseX 0 5 - (SlideRec.mk 0 10 10).targetX| > slideWidth * 2 ∧
      (slideFrame 5 0 (SlideRec.mk 0 10 10)).currentX = wrapBaseX 0 5 := by
  have h : |wrapBaseX 0 5 - (SlideRec.mk 0 10 10).targetX| > slideWidth * 2 := by
    rw [wrapBaseX_zero_five]
    norm_num [slideWidth]
  exact ⟨h, (C2_wrap_snap 5 0 (SlideRec.mk 0 10 10) h).1⟩

/-- C9: with `slideCount = 10`, `slideWidth = 3.0`, `gap = 0.1` (so
`slideUnit = 3.1` and `totalWidth = 31.0`), after creation and the initial
centering pass every slide `i` has `position.x`, `targetX` and `currentX`
all equal to `i·3.1 - 15.5`. -/
theorem C9_initial_layout :
    slideCount = 10 ∧ slideWidth = 3 ∧ gap = 1/10 ∧ slideUnit = 31/10 ∧
      totalWidth = 31 ∧
      ∀ i : ℕ, (initSlide i).posX = (i : ℚ) * (31/10) - 31/2 ∧
        (initSlide i).targetX = (i : ℚ) * (31/10) - 31/2 ∧
        (initSlide i).currentX = (i : ℚ) * (31/10) - 31/2 := by
  refine ⟨rfl, by norm_num [slideWidth], by norm_num [gap],
    by norm_num [slideUnit, slideWidth, gap],
    by norm_num [totalWidth, slideWidth, gap, slideCount], ?_⟩
  intro i
  refine ⟨?_, ?_, ?_⟩ <;>
    · simp only [initSlide, createSlideX, slideWidth, gap, totalWidth, slideCount]
      ring

/-! ### The reachable-state invariant for a slide's `currentX` -/

theorem slideFrame_inv (p : ℚ) (i : ℕ) (st : SlideRec)
    (h1 : |st.currentX| ≤ totalWidth / 2) :
    |(slideFrame p i st).currentX| ≤ totalWidth / 2 ∧
      (slideFrame p i st).posX = (slideFrame p i st).currentX := by
  obtain ⟨hb0, hb1⟩ := wrapBaseX_mem i p
  have htw := totalWidth_pos
  obtain ⟨hc0, hc1⟩ := abs_le.mp h1
  simp only [slideFrame, slideLerp, slideWidth]
  split_ifs with hw hcul hcul
  · exact ⟨by rw [abs_le]; constructor <;> linarith, rfl⟩
  · exfalso
    apply hcul
    have habs : |wrapBaseX i p + (wrapBaseX i p - wrapBaseX i p) * (75/1000)| ≤
        totalWidth / 2 := by
      rw [abs_le]; constructor <;> linarith
    linarith [abs_nonneg (wrapBaseX i p + (wrapBaseX i p - wrapBaseX i p) * (75/1000))]
  · exact ⟨by rw [abs_le]; constructor <;> linarith, rfl⟩
  · exfalso
    apply hcul
    have habs : |st.currentX + (wrapBaseX i p - st.currentX) * (75/1000)| ≤
        totalWidth / 2 := by
      rw [abs_le]; constructor <;> linarith
    linarith

theorem slideRun_inv (i : ℕ) (positions : List ℚ) (st : SlideRec)
    (h1 : |st.currentX| ≤ totalWidth / 2)
    (h2 : st.posX = st.currentX) :
    |(positions.foldl (fun s p => slideFrame p i s) st).currentX| ≤ totalWidth / 2 ∧
      (positions.foldl (fun s p => slideFrame p i s) st).posX =
        (positions.foldl (fun s p => slideFrame p i s) st).currentX := by
  induction positions generalizing st with
  | nil => exact ⟨h1, h2⟩
  | cons p ps ih =>
      obtain ⟨g1, g2⟩ := slideFrame_inv p i st h1
      exact ih (slideFrame p i st) g1 g2

/-- C10: for every slide and every reachable state, `|currentX|` never
exceeds `totalWidth/2`, so the proximity-culling test
`|currentX| < 1.5·(totalWidth/2 + slideWidth)` is true every frame for
every slide: no slide is ever actually culled, and `position.x` tracks
`currentX` every frame. -/
theorem C10_no_culling (i : ℕ) (hi : i < slideCount) (positions : List ℚ) :
    |(slideRun i positions).currentX| ≤ totalWidth / 2 ∧
      |(slideRun i positions).currentX| < (totalWidth / 2 + slideWidth) * (3/2) ∧
      (slideRun i positions).posX = (slideRun i positions).currentX := by
  have hi9 : (i : ℚ) ≤ 9 := by
    have : i ≤ 9 := Nat.lt_succ_iff.mp (by simpa [slideCount] using hi)
    exact_mod_cast this
  have hi0 : (0 : ℚ) ≤ (i : ℚ) := Nat.cast_nonneg i
  have hinit : |(initSlide i).currentX| ≤ totalWidth / 2 := by
    simp only [initSlide, createSlideX, slideWidth, gap, totalWidth, slideCount]
    rw [abs_le]
    constructor <;> · push_cast; linarith
  obtain ⟨g1, g2⟩ := slideRun_inv i positions (initSlide i) hinit rfl
  refine ⟨g1, ?_, g2⟩
  have htw := totalWidth_pos
  calc |(slideRun i positions).currentX| ≤ totalWidth / 2 := g1
  _ < (totalWidth / 2 + slideWidth) * (3/2) := by
        simp only [slideWidth]; linarith

theorem C10_no_culling_witness :
    0 < slideCount ∧ |(slideRun 0 [5]).currentX| ≤ totalWidth / 2 :=
  ⟨by decide, (C10_no_culling 0 (by decide) [5]).1⟩

/-- C3: calling the curve-update function with distortion factor `d = 0`
sets the Z coordinate of every vertex to exactly `0`, for every mesh and
every world X position; more generally the resulting Z values are a pure
function of the undeformed snapshot, the world X and `d` — in particular
repeated application with the same arguments yields identical geometry
(no accumulation across frames). -/
theorem C3_curve_flat_and_pure (m : MeshState) (worldPositionX d : ℝ) :
    (updateCurve m worldPositionX 0).zs = m.orig.map (fun _ => 0) ∧
      (updateCurve m worldPositionX d).zs = m.orig.map (curveZ worldPositionX d) ∧
      (updateCurve m worldPositionX d).orig = m.orig ∧
      updateCurve (updateCurve m worldPositionX d) worldPositionX d =
        updateCurve m worldPositionX d := by
  refine ⟨?_, rfl, rfl, rfl⟩
  exact List.map_congr_left (fun v _ => by simp [curveZ])

/-! ### Frames with no input and `isScrolling = false` -/

theorem animateStep_not_scrolling (dt : ℚ) (s : Carousel)
    (h : s.isScrolling = false) :
    (animateStep dt s).targetPosition = s.targetPosition ∧
      (animateStep dt s).currentPosition =
        s.currentPosition + (s.targetPosition - s.currentPosition) * smoothing ∧
      (animateStep dt s).isScrolling = false := by
  simp [animateStep, scrollTargets, h]

theorem animateRun_error (dts : List ℚ) (s : Carousel) (h : s.isScrolling = false) :
    (animateRun dts s).targetPosition = s.targetPosition ∧
      (animateRun dts s).isScrolling = false ∧
      (animateRun dts s).targetPosition - (animateRun dts s).currentPosition =
        (s.targetPosition - s.currentPosition) * (9/10) ^ dts.length := by
  induction dts generalizing s with
  | nil => exact ⟨rfl, h, by simp [animateRun]⟩
  | cons dt dts ih =>
      obtain ⟨e1, e2, e3⟩ := animateStep_not_scrolling dt s h
      obtain ⟨f1, f2, f3⟩ := ih (animateStep dt s) e3
      have hstep : (animateRun (dt :: dts) s) = animateRun dts (animateStep dt s) := by
        simp [animateRun]
      refine ⟨by rw [hstep, f1, e1], by rw [hstep]; exact f2, ?_⟩
      rw [hstep, f3, e1, e2]
      simp only [smoothing, List.length_cons]
      ring

/-- C4: in a frame where `isScrolling` is false (so `targetPosition` is
unchanged), the update `currentPosition += (targetPosition -
currentPosition)·0.1` multiplies the error by exactly `0.9`, so after `k`
such frames the error equals `error0 · 0.9^k`; and for any smoothing
factor `≤ 1` the sign of the error never flips (no overshoot). -/
theorem C4_smoothing_decay (s : Carousel) (dt : ℚ) (dts : List ℚ) (sm t c : ℚ)
    (h : s.isScrolling = false) :
    s.targetPosition - (animateStep dt s).currentPosition =
        (s.targetPosition - s.currentPosition) * (9/10) ∧
      (animateStep dt s).targetPosition = s.targetPosition ∧
      (animateRun dts s).targetPosition - (animateRun dts s).currentPosition =
        (s.targetPosition - s.currentPosition) * (9/10) ^ dts.length ∧
      (sm ≤ 1 → 0 ≤ (t - c) * (t - posStepS sm t c)) := by
  obtain ⟨e1, e2, e3⟩ := animateStep_not_scrolling dt s h
  obtain ⟨f1, f2, f3⟩ := animateRun_error dts s h
  refine ⟨?_, e1, f3, ?_⟩
  · rw [e2]
    simp only [smoothing]
    ring
  · intro hsm
    have hkey : (t - c) * (t - posStepS sm t c) = (t - c) ^ 2 * (1 - sm) := by
      simp only [posStepS]
      ring
    rw [hkey]
    exact mul_nonneg (sq_nonneg _) (by linarith)

def c4ex : Carousel := { initCarousel with targetPosition := 1 }

theorem C4_smoothing_decay_witness :
    c4ex.isScrolling = false ∧
      c4ex.targetPosition - (animateStep (1/60) c4ex).currentPosition =
        (c4ex.targetPosition - c4ex.currentPosition) * (9/10) ∧
      ((1 : ℚ)/2 ≤ 1 ∧ 0 ≤ ((1 : ℚ) - 0) * (1 - posStepS (1/2) 1 0)) :=
  ⟨rfl, (C4_smoothing_decay c4ex (1/60) [] (1/2) 1 0 rfl).1,
    by norm_num,
    (C4_smoothing_decay c4ex (1/60) [] (1/2) 1 0 rfl).2.2.2 (by norm_num)⟩

/-- C5: a wheel event with vertical delta `deltaY` adds
`-deltaY · wheelSensitivity` to `targetPosition`, raises
`targetDistortionFactor` by `|deltaY|·0.001` clamped to at most `1.0`,
sets `isScrolling` to true, and sets
`autoScrollSpeed = min(|deltaY|·0.0005, 0.05) · sign(deltaY)`; in
particular a single event with `deltaY = 100` changes `targetPosition`
by exactly `-1.0` and makes `autoScrollSpeed` `0.05`. -/
theorem C5_wheel (s : Carousel) (deltaY : ℚ) :
    (onWheel s deltaY).targetPosition = s.targetPosition - deltaY * wheelSensitivity ∧
      (onWheel s deltaY).targetDistortionFactor ≤ 1 ∧
      (s.targetDistortionFactor + |deltaY| * (1/1000) ≤ 1 →
        (onWheel s deltaY).targetDistortionFactor =
          s.targetDistortionFactor + |deltaY| * (1/1000)) ∧
      (onWheel s deltaY).isScrolling = true ∧
      (onWheel s deltaY).autoScrollSpeed =
        min (|deltaY| * (5/10000)) (5/100) * jsSign deltaY ∧
      (onWheel s 100).targetPosition = s.targetPosition - 1 ∧
      (onWheel s 100).autoScrollSpeed = 5/100 := by
  refine ⟨rfl, min_le_left _ _, fun h => min_eq_right h, rfl, rfl, ?_, ?_⟩
  · simp only [onWheel, wheelSensitivity]
    ring
  · simp only [onWheel, jsSign]
    norm_num

theorem C5_wheel_witness :
    initCarousel.targetDistortionFactor + |(2 : ℚ)| * (1/1000) ≤ 1 ∧
      (onWheel initCarousel 2).targetDistortionFactor =
        initCarousel.targetDistortionFactor + |(2 : ℚ)| * (1/1000) ∧
      (onWheel initCarousel 100).autoScrollSpeed = 5/100 := by
  have h : initCarousel.targetDistortionFactor + |(2 : ℚ)| * (1/1000) ≤ 1 := by
    norm_num [initCarousel]
  exact ⟨h, (C5_wheel initCarousel 2).2.2.1 h, (C5_wheel initCarousel 2).2.2.2.2.2.2⟩

/-- C6: on `touchend`, with `velocity = (touchLastX - touchStartX)·0.005`:
if `|velocity| > 0.5` the handler sets
`autoScrollSpeed = -velocity · momentumMultiplier · 0.05`, sets
`targetDistortionFactor` from the velocity magnitude
(`min(1, |velocity|·3·0.15)`) and sets `isScrolling` true; if
`|velocity| ≤ 0.5` the state is unchanged.  In particular
`touchStartX = 0`, `touchLastX = 200` gives `velocity = 1.0` and
`autoScrollSpeed = -0.1`. -/
theorem C6_touchend (s : Carousel) :
    (|touchVelocity s| > 1/2 →
        (onTouchEnd s).autoScrollSpeed =
          -(touchVelocity s) * momentumMultiplier * (5/100) ∧
        (onTouchEnd s).targetDistortionFactor =
          min 1 (|touchVelocity s| * 3 * distortionSensitivity) ∧
        (onTouchEnd s).isScrolling = true) ∧
      (¬ |touchVelocity s| > 1/2 → onTouchEnd s = s) ∧
      (s.touchStartX = 0 → s.touchLastX = 200 →
        touchVelocity s = 1 ∧ (onTouchEnd s).autoScrollSpeed = -(1/10)) := by
  refine ⟨fun h => ?_, fun h => ?_, fun h0 h200 => ?_⟩
  · simp only [onTouchEnd]
    rw [if_pos h]
    exact ⟨rfl, rfl, rfl⟩
  · simp only [onTouchEnd]
    rw [if_neg h]
  · have hv : touchVelocity s = 1 := by
      simp only [touchVelocity, h0, h200]
      norm_num
    have h : |touchVelocity s| > 1/2 := by
      rw [hv]
      norm_num
    refine ⟨hv, ?_⟩
    simp only [onTouchEnd]
    rw [if_pos h, hv]
    norm_num [momentumMultiplier]

def c6ex : Carousel := { initCarousel with touchLastX := 200 }

theorem C6_touchend_witness :
    (|touchVelocity c6ex| > 1/2 ∧ (onTouchEnd c6ex).isScrolling = true ∧
        touchVelocity c6ex = 1 ∧ (onTouchEnd c6ex).autoScrollSpeed = -(1/10)) ∧
      (¬ |touchVelocity initCarousel| > 1/2 ∧
        onTouchEnd initCarousel = initCarousel) := by
  have h : |touchVelocity c6ex| > 1/2 := by
    norm_num [touchVelocity, c6ex, initCarousel]
  have h2 : ¬ |touchVelocity initCarousel| > 1/2 := by
    norm_num [touchVelocity, initCarousel]
  exact ⟨⟨h, ((C6_touchend c6ex).1 h).2.2, (C6_touchend c6ex).2.2 rfl rfl⟩,
    h2, (C6_touchend initCarousel).2.1 h2⟩

/-- C7: in every frame where `isScrolling` is true, the scroll integrator
adds `autoScrollSpeed` to `targetPosition`, then multiplies
`autoScrollSpeed` by `max(0.92, 0.97 - |autoScrollSpeed|·0.5)` and snaps
it to exactly `0` if its absolute value has fallen below `0.001`; in
frames where `isScrolling` is false, `targetPosition` and
`autoScrollSpeed` are unchanged. -/
theorem C7_scroll_integrator (s : Carousel) (dt : ℚ) :
    (s.isScrolling = true →
        (animateStep dt s).targetPosition = s.targetPosition + s.autoScrollSpeed ∧
        (animateStep dt s).autoScrollSpeed =
          (if |s.autoScrollSpeed * max (92/100) (97/100 - |s.autoScrollSpeed| * (1/2))|
              < 1/1000
           then 0
           else s.autoScrollSpeed * max (92/100) (97/100 - |s.autoScrollSpeed| * (1/2)))) ∧
      (s.isScrolling = false →
        (animateStep dt s).targetPosition = s.targetPosition ∧
        (animateStep dt s).autoScrollSpeed = s.autoScrollSpeed) := by
  constructor
  · intro h
    constructor
    · show (scrollTargets s).1 = _
      simp [scrollTargets, h]
    · show (scrollTargets s).2 = _
      simp [scrollTargets, h]
  · intro h
    constructor
    · show (scrollTargets s).1 = _
      simp [scrollTargets, h]
    · show (scrollTargets s).2 = _
      simp [scrollTargets, h]

def c7ex : Carousel :=
  { initCarousel with isScrolling := true, autoScrollSpeed := 1/20 }

theorem C7_scroll_integrator_witness :
    (c7ex.isScrolling = true ∧
        (animateStep (1/60) c7ex).targetPosition =
          c7ex.targetPosition + c7ex.autoScrollSpeed) ∧
      (initCarousel.isScrolling = false ∧
        (animateStep (1/60) initCarousel).autoScrollSpeed =
          initCarousel.autoScrollSpeed) :=
  ⟨⟨rfl, ((C7_scroll_integrator c7ex (1/60)).1 rfl).1⟩,
    rfl, ((C7_scroll_integrator initCarousel (1/60)).2 rfl).2⟩

/-! ### Bounds on the distortion factors -/

/-- Both distortion factors lie in the unit interval. -/
def inDistortionBounds (s : Carousel) : Prop :=
  0 ≤ s.targetDistortionFactor ∧ s.targetDistortionFactor ≤ 1 ∧
    0 ≤ s.currentDistortionFactor ∧ s.currentDistortionFactor ≤ 1

theorem distortionTarget_bounds (cv av : ℚ) (dec : Bool) (tdf : ℚ)
    (h1 : 0 ≤ tdf) (h2 : tdf ≤ 1) :
    0 ≤ distortionTarget cv av dec tdf ∧ distortionTarget cv av dec tdf ≤ 1 := by
  have hmd1 : min 1 (cv * (1/10)) ≤ 1 := min_le_left _ _
  have hmax0 : 0 ≤ max tdf (min 1 (cv * (1/10))) := le_trans h1 (le_max_left _ _)
  have hmax1 : max tdf (min 1 (cv * (1/10))) ≤ 1 := max_le h2 hmd1
  simp only [distortionTarget, distortionDecay]
  split_ifs <;> constructor <;> linarith

theorem animateStep_distortion_bounds (dt : ℚ) (s : Carousel)
    (h1 : 0 ≤ s.targetDistortionFactor) (h2 : s.targetDistortionFactor ≤ 1)
    (h3 : 0 ≤ s.currentDistortionFactor) (h4 : s.currentDistortionFactor ≤ 1) :
    inDistortionBounds (animateStep dt s) := by
  have hT : 0 ≤ (animateStep dt s).targetDistortionFactor ∧
      (animateStep dt s).targetDistortionFactor ≤ 1 :=
    distortionTarget_bounds _ _ _ _ h1 h2
  have hC : (animateStep dt s).currentDistortionFactor =
      s.currentDistortionFactor +
        ((animateStep dt s).targetDistortionFactor - s.currentDistortionFactor) *
          distortionSmoothing := rfl
  refine ⟨hT.1, hT.2, ?_, ?_⟩
  · rw [hC]
    simp only [distortionSmoothing]
    linarith [hT.1, hT.2]
  · rw [hC]
    simp only [distortionSmoothing]
    linarith [hT.1, hT.2]

/-- C8 counterexample: from the initial state (both factors `0`), a single
`touchmove` with `touchX = 50` sets `targetDistortionFactor` to `-1`,
which is outside `[0, 1]` — so the factors do not remain in `[0, 1]`
after every input-handler invocation. -/
theorem C8_factors_leave_unit_interval :
    (onTouchMove initCarousel 50).targetDistortionFactor = -1 ∧
      ¬ (0 ≤ (onTouchMove initCarousel 50).targetDistortionFactor) := by
  have h : (onTouchMove initCarousel 50).targetDistortionFactor = -1 := by
    simp only [onTouchMove, initCarousel]
    norm_num [min_def]
  refine ⟨h, ?_⟩
  rw [h]
  norm_num

/-- C8 (amended): if both distortion factors lie in `[0, 1]` then they
still do after a keyboard, wheel or touchend invocation and after an
animation-frame update; `touchmove` keeps `targetDistortionFactor ≤ 1`
and leaves `currentDistortionFactor` unchanged, but (per the
counterexample) may drive `targetDistortionFactor` below `0`. -/
theorem C8_distortion_bounds (s : Carousel) (deltaY touchX dt : ℚ)
    (h : inDistortionBounds s) :
    inDistortionBounds (onArrowLeft s) ∧ inDistortionBounds (onArrowRight s) ∧
      inDistortionBounds (onWheel s deltaY) ∧ inDistortionBounds (onTouchEnd s) ∧
      inDistortionBounds (animateStep dt s) ∧
      (onTouchMove s touchX).targetDistortionFactor ≤ 1 ∧
      (onTouchMove s touchX).currentDistortionFactor = s.currentDistortionFactor := by
  obtain ⟨h1, h2, h3, h4⟩ := h
  refine ⟨⟨le_min (by norm_num) (by linarith), min_le_left _ _, h3, h4⟩,
    ⟨le_min (by norm_num) (by linarith), min_le_left _ _, h3, h4⟩,
    ⟨le_min (by norm_num) (add_nonneg h1 (by positivity)), min_le_left _ _, h3, h4⟩,
    ?_, animateStep_distortion_bounds dt s h1 h2 h3 h4,
    min_le_left _ _, rfl⟩
  simp only [onTouchEnd, distortionSensitivity]
  split_ifs with hv
  · exact ⟨le_min (by norm_num) (by positivity), min_le_left _ _, h3, h4⟩
  · exact ⟨h1, h2, h3, h4⟩

theorem C8_distortion_bounds_witness :
    inDistortionBounds initCarousel ∧
      inDistortionBounds (onArrowLeft initCarousel) ∧
      (onTouchMove initCarousel 50).currentDistortionFactor =
        initCarousel.currentDistortionFactor := by
  have h : inDistortionBounds initCarousel :=
    ⟨le_refl 0, by norm_num [initCarousel], le_refl 0, by norm_num [initCarousel]⟩
  exact ⟨h, (C8_distortion_bounds initCarousel 2 50 (1/60) h).1,
    (C8_distortion_bounds initCarousel 2 50 (1/60) h).2.2.2.2.2.2⟩

end Slider
